import Mathlib

/-!
Verification development for the `caked` library: a lexer, deserializer and
serializer for PHP-style array-literal configuration text.

The definitions below are a shallow embedding of the Rust sources
(`src/lex.rs`, `src/deser.rs`, `src/kvp.rs`, `src/ser.rs`), translated
arm-by-arm.  Mutable state is threaded explicitly; fallible operations return
`Except`/`Option`; the Rust `Vec` stacks are modelled as Lean lists with the
list head as the stack top (Vec push/pop act on the back).
-/

namespace Caked

/-- Model of a 64-bit IEEE float for the purposes of this development: either
NaN, or a non-NaN value carrying its (exact) numeric magnitude as a rational.
This captures precisely the order structure used by Rust `partial_cmp` on
`f64` (NaN is incomparable with everything; non-NaN values are totally
ordered).  Rounding of parsed literals to the nearest double and the
shortest-round-trip display of doubles are not modelled; no claim below
depends on a float's numeric value. -/
inductive F64 where
  | nan : F64
  | val (q : ℚ) : F64
  deriving DecidableEq, Repr

/-- `PartialOrd::partial_cmp` on `f64`: `None` iff either side is NaN. -/
def F64.partialCmp : F64 → F64 → Option Ordering
  | .nan, _ => none
  | .val _, .nan => none
  | .val a, .val b => some (compare a b)

/-- A token position (`lex.rs`, `struct Position`). -/
structure Position where
  index : Nat
  line : Nat
  column : Nat
  deriving DecidableEq, Repr

/-- `Position::advance` (`lex.rs` lines 107-115). -/
def Position.advance (p : Position) (new_line : Bool) : Position :=
  if new_line then
    { index := p.index + 1, line := p.line + 1, column := 0 }
  else
    { index := p.index + 1, line := p.line, column := p.column + 1 }

/-- `Position::default()` = `Position::new(0, 0, 0)`. -/
def Position.start : Position := { index := 0, line := 0, column := 0 }

/-- A lexer token (`lex.rs`, `enum Token`). -/
inductive Token where
  | Separator
  | Assignment
  | OpenSet
  | CloseSet
  | Int (raw : String)
  | Float (raw : String)
  | Identifier (raw : String)
  | SingleQuote (decoded : String)
  | DoubleQuote (decoded : String)
  deriving DecidableEq, Repr

/-- The lexer automaton state (`lex.rs`, `enum State`, 25 variants). -/
inductive State where
  | Initial
  | PrepareComment
  | PrepareAssignment
  | SingleQuote
  | DoubleQuote
  | Integer
  | IntegerDecimal
  | Identifier
  | PrepareOpenTag
  | PrepareCloseTag
  | LineComment
  | MultiLineComment
  | MultiLineCommentPrepareExit
  | Decimal
  | SingleQuoteEscape
  | DoubleQuoteEscape
  | DoubleQuoteEscapeControl
  | DoubleQuoteEscapeHex
  | DoubleQuoteEscapeOctal2
  | DoubleQuoteEscapeHexBound
  | DoubleQuoteEscapeHex2
  | PHPTag0
  | PHPTag1
  | PHPTag2
  | DoubleQuoteEscapeOctal3
  deriving DecidableEq, Repr

/-- `enum LexErrorKind`.  The `u32` payload of `InvalidUnicode` is a `Nat`
kept below `2^32` by the lexer. -/
inductive LexErrorKind where
  | EOF
  | Unexpected (c : Char)
  | InvalidUnicode (codepoint : Nat)
  deriving DecidableEq, Repr

/-- `struct LexError`. -/
structure LexError where
  position : Position
  state : State
  kind : LexErrorKind
  deriving DecidableEq, Repr

/-- The five `&mut` arguments of `lex` gathered into one record. -/
structure LexState where
  state : State
  position : Position
  token_position : Position
  buffer : String
  codepoint : Nat
  deriving DecidableEq, Repr

/-- The initial lexer state used by `deser_str` (`State::default()`,
`Position::default()` twice, empty buffer, codepoint 0). -/
def LexState.start : LexState :=
  { state := .Initial, position := .start, token_position := .start,
    buffer := "", codepoint := 0 }

/-- Result of feeding characters to the lexer.  `panic` models the
`u8::try_from(*cp).unwrap()` calls in the source, which panic when the
accumulated escape codepoint exceeds 255. -/
inductive StepOut where
  | ok (ls : LexState) (out : List (Position × Token))
  | err (e : LexError)
  | panic
  deriving DecidableEq, Repr

/-- Models `b.push(u8::try_from(*cp).unwrap().into())`: `none` is the panic. -/
def pushByte (b : String) (cp : Nat) : Option String :=
  if cp < 256 then some (b.push (Char.ofNat cp)) else none

/-- Models `char::try_from(u: u32)`: valid Unicode scalar values only. -/
def charFromU32 (n : Nat) : Option Char :=
  if n < 0xd800 ∨ (0xdfff < n ∧ n < 0x110000) then some (Char.ofNat n) else none

/-- Models `c.to_uppercase().next().unwrap()`.  Exact on ASCII (the only
characters any claim exercises); the full Unicode uppercasing table is not
reproduced. -/
def rustToUpperFirst (c : Char) : Char := c.toUpper

/-- One iteration of the character loop of `lex` (`lex.rs` lines 191-623):
advance the position, then dispatch on the current state. -/
def lexStep (ls : LexState) (c : Char) : StepOut :=
  let p := ls.position.advance (c = '\n')
  let ls := { ls with position := p }
  match ls.state with
  | .Initial =>
    if c = ' ' ∨ c = '\r' ∨ c = '\n' ∨ c = '\t' then .ok ls []
    else if c = '/' then .ok { ls with state := .PrepareComment } []
    else if c = '[' then .ok ls [(p, .OpenSet)]
    else if c = ']' then .ok ls [(p, .CloseSet)]
    else if c = '=' then .ok { ls with state := .PrepareAssignment } []
    else if c = '\'' then
      .ok { ls with token_position := p, state := .SingleQuote } []
    else if c = '"' then
      .ok { ls with token_position := p, state := .DoubleQuote } []
    else if '0' ≤ c ∧ c ≤ '9' then
      .ok { ls with token_position := p, buffer := "".push c, state := .Integer } []
    else if ('A' ≤ c ∧ c ≤ 'Z') ∨ ('a' ≤ c ∧ c ≤ 'z') ∨ c = '_' then
      .ok { ls with token_position := p, buffer := "".push c, state := .Identifier } []
    else if c = ',' then .ok ls [(p, .Separator)]
    else if c = '<' then .ok { ls with state := .PrepareOpenTag } []
    else if c = '?' then .ok { ls with state := .PrepareCloseTag } []
    else .err ⟨p, .Initial, .Unexpected c⟩
  | .PrepareComment =>
    if c = '/' then .ok { ls with state := .LineComment } []
    else if c = '*' then .ok { ls with state := .MultiLineComment } []
    else .err ⟨p, .PrepareComment, .Unexpected c⟩
  | .PrepareAssignment =>
    if c = '>' then .ok { ls with state := .Initial } [(p, .Assignment)]
    else .err ⟨p, .PrepareAssignment, .Unexpected c⟩
  | .SingleQuote =>
    if c = '\'' then
      .ok { ls with state := .Initial } [(ls.token_position, .SingleQuote ls.buffer)]
    else if c = '\\' then .ok { ls with state := .SingleQuoteEscape } []
    else .ok { ls with buffer := ls.buffer.push c } []
  | .DoubleQuote =>
    if c = '"' then
      .ok { ls with state := .Initial } [(ls.token_position, .DoubleQuote ls.buffer)]
    else if c = '\\' then .ok { ls with state := .DoubleQuoteEscape } []
    else .ok { ls with buffer := ls.buffer.push c } []
  | .Integer =>
    if c = ' ' ∨ c = '\r' ∨ c = '\n' ∨ c = '\t' ∨ c = ';' then
      .ok { ls with state := .Initial } [(ls.token_position, .Int ls.buffer)]
    else if c = '/' then
      .ok { ls with state := .PrepareComment } [(ls.token_position, .Int ls.buffer)]
    else if c = '[' then
      .ok { ls with state := .Initial } [(ls.token_position, .Int ls.buffer), (p, .OpenSet)]
    else if c = ']' then
      .ok { ls with state := .Initial } [(ls.token_position, .Int ls.buffer), (p, .CloseSet)]
    else if c = '=' then
      .ok { ls with state := .PrepareAssignment } [(ls.token_position, .Int ls.buffer)]
    else if c = '\'' then
      .ok { ls with buffer := "", token_position := p, state := .SingleQuote }
        [(ls.token_position, .Int ls.buffer)]
    else if c = ',' then
      .ok { ls with state := .Initial } [(ls.token_position, .Int ls.buffer), (p, .Separator)]
    else if c = '"' then
      .ok { ls with buffer := "", token_position := p, state := .DoubleQuote }
        [(ls.token_position, .Int ls.buffer)]
    else if ('0' ≤ c ∧ c ≤ '0') ∨ c = 'E' ∨ c = 'e' ∨ c = '+' then
      .ok { ls with buffer := ls.buffer.push c } []
    else if c = '-' ∨ c = '.' then
      .ok { ls with buffer := ls.buffer.push c, state := .Decimal } []
    else .err ⟨p, .Integer, .Unexpected c⟩
  | .IntegerDecimal =>
    if '0' ≤ c ∧ c ≤ '9' then
      .ok { ls with buffer := ls.buffer.push c, state := .Integer } []
    else if c = '.' then
      .ok { ls with buffer := ls.buffer.push '.', state := .Decimal } []
    else .err ⟨p, .IntegerDecimal, .Unexpected c⟩
  | .Identifier =>
    if c = ' ' ∨ c = '\r' ∨ c = '\n' ∨ c = '\t' ∨ c = ';' then
      .ok { ls with state := .Initial } [(ls.token_position, .Identifier ls.buffer)]
    else if c = '/' then
      .ok { ls with state := .PrepareComment } [(ls.token_position, .Identifier ls.buffer)]
    else if c = '[' then
      .ok { ls with state := .Initial }
        [(ls.token_position, .Identifier ls.buffer), (p, .OpenSet)]
    else if c = ']' then
      .ok { ls with state := .Initial }
        [(ls.token_position, .Identifier ls.buffer), (p, .CloseSet)]
    else if c = '=' then
      .ok { ls with state := .PrepareAssignment } [(ls.token_position, .Identifier ls.buffer)]
    else if c = '\'' then
      .ok { ls with buffer := "", token_position := p, state := .SingleQuote }
        [(ls.token_position, .Identifier ls.buffer)]
    else if c = '"' then
      .ok { ls with buffer := "", token_position := p, state := .DoubleQuote }
        [(ls.token_position, .Identifier ls.buffer)]
    else if c = ',' then
      .ok { ls with state := .Initial }
        [(ls.token_position, .Identifier ls.buffer), (p, .Separator)]
    else if c = '<' then
      .ok { ls with state := .PrepareOpenTag } [(ls.token_position, .Identifier ls.buffer)]
    else if c = '?' then
      .ok { ls with state := .PrepareCloseTag } [(ls.token_position, .Identifier ls.buffer)]
    else if ('0' ≤ c ∧ c ≤ '9') ∨ c = '_' ∨ ('a' ≤ c ∧ c ≤ 'z') ∨ ('A' ≤ c ∧ c ≤ 'Z') then
      .ok { ls with buffer := ls.buffer.push c } []
    else .err ⟨p, .Identifier, .Unexpected c⟩
  | .PrepareOpenTag =>
    if c = '?' then .ok { ls with state := .PHPTag0 } []
    else .err ⟨p, .PrepareOpenTag, .Unexpected c⟩
  | .PrepareCloseTag =>
    if c = '>' then .ok { ls with state := .Initial } []
    else .err ⟨p, .PrepareCloseTag, .Unexpected c⟩
  | .LineComment =>
    if c = '\n' then .ok { ls with state := .Initial } [] else .ok ls []
  | .MultiLineComment =>
    if c = '*' then .ok { ls with state := .MultiLineCommentPrepareExit } [] else .ok ls []
  | .MultiLineCommentPrepareExit =>
    if c = '*' then .ok ls []
    else if c = '/' then .ok { ls with state := .Initial } []
    else .ok { ls with state := .MultiLineComment } []
  | .Decimal =>
    if c = ' ' ∨ c = '\r' ∨ c = '\n' ∨ c = '\t' ∨ c = ';' then
      .ok { ls with state := .Initial } [(ls.token_position, .Float ls.buffer)]
    else if c = '/' then
      .ok { ls with state := .PrepareComment } [(ls.token_position, .Float ls.buffer)]
    else if c = '[' then
      .ok { ls with state := .Initial } [(ls.token_position, .Float ls.buffer), (p, .OpenSet)]
    else if c = ']' then
      .ok { ls with state := .Initial } [(ls.token_position, .Float ls.buffer), (p, .CloseSet)]
    else if c = '=' then
      .ok { ls with state := .PrepareAssignment } [(ls.token_position, .Float ls.buffer)]
    else if c = '\'' then
      .ok { ls with buffer := "", token_position := p, state := .SingleQuote }
        [(ls.token_position, .Float ls.buffer)]
    else if c = ',' then
      .ok { ls with state := .Initial } [(ls.token_position, .Float ls.buffer), (p, .Separator)]
    else if c = '"' then
      .ok { ls with buffer := "", token_position := p, state := .DoubleQuote }
        [(ls.token_position, .Float ls.buffer)]
    else if ('0' ≤ c ∧ c ≤ '0') ∨ c = 'E' ∨ c = 'e' ∨ c = '+' ∨ c = '-' ∨ c = '.' then
      .ok { ls with buffer := ls.buffer.push c } []
    else .err ⟨p, .Decimal, .Unexpected c⟩
  | .SingleQuoteEscape =>
    if c = '\\' ∨ c = '\'' then
      .ok { ls with buffer := ls.buffer.push c, state := .SingleQuote } []
    else
      .ok { ls with buffer := (ls.buffer.push '\\').push c, state := .SingleQuote } []
  | .DoubleQuoteEscape =>
    if c = 'a' then
      .ok { ls with buffer := ls.buffer.push '\u0007', state := .DoubleQuote } []
    else if c = 'c' then .ok { ls with state := .DoubleQuoteEscapeControl } []
    else if c = 'e' then
      .ok { ls with buffer := ls.buffer.push '\u001b', state := .DoubleQuote } []
    else if c = 'f' then
      .ok { ls with buffer := ls.buffer.push '\u000c', state := .DoubleQuote } []
    else if c = 'n' then
      .ok { ls with buffer := ls.buffer.push '\n', state := .DoubleQuote } []
    else if c = 'r' then
      .ok { ls with buffer := ls.buffer.push '\r', state := .DoubleQuote } []
    else if c = 't' then
      .ok { ls with buffer := ls.buffer.push '\t', state := .DoubleQuote } []
    else if c = '$' then
      .ok { ls with buffer := ls.buffer.push '$', state := .DoubleQuote } []
    else if c = '"' then
      .ok { ls with buffer := ls.buffer.push '"', state := .DoubleQuote } []
    else if c = '\\' then
      .ok { ls with buffer := ls.buffer.push '\\', state := .DoubleQuote } []
    else if c = 'x' then
      .ok { ls with codepoint := 0, state := .DoubleQuoteEscapeHex } []
    else if '0' ≤ c ∧ c ≤ '9' then
      .ok { ls with codepoint := c.toNat - '0'.toNat, state := .DoubleQuoteEscapeOctal2 } []
    else .err ⟨p, .DoubleQuoteEscape, .Unexpected c⟩
  | .DoubleQuoteEscapeControl =>
    match charFromU32 ((rustToUpperFirst c).toNat ^^^ 0x60) with
    | some x => .ok { ls with buffer := ls.buffer.push x, state := .DoubleQuote } []
    | none =>
      .err ⟨p, .DoubleQuoteEscapeControl,
        .InvalidUnicode ((rustToUpperFirst c).toNat ^^^ 0x60)⟩
  | .DoubleQuoteEscapeHex =>
    if c = '{' then .ok { ls with state := .DoubleQuoteEscapeHexBound } []
    else if '0' ≤ c ∧ c ≤ '9' then
      .ok
        { ls with
          codepoint := ls.codepoint ||| (c.toNat - '0'.toNat),
          state := .DoubleQuoteEscapeHex2 } []
    else if 'a' ≤ c ∧ c ≤ 'f' then
      .ok
        { ls with
          codepoint := ls.codepoint ||| (c.toNat - 'a'.toNat),
          state := .DoubleQuoteEscapeHex2 } []
    else if 'A' ≤ c ∧ c ≤ 'F' then
      .ok
        { ls with
          codepoint := ls.codepoint ||| (c.toNat - 'A'.toNat),
          state := .DoubleQuoteEscapeHex2 } []
    else .err ⟨p, .DoubleQuoteEscapeHex, .Unexpected c⟩
  | .DoubleQuoteEscapeOctal2 =>
    if '0' ≤ c ∧ c ≤ '7' then
      .ok
        { ls with
          codepoint := ((ls.codepoint <<< 3) % 2 ^ 32) ||| (c.toNat - '0'.toNat),
          state := .DoubleQuoteEscapeOctal3 } []
    else if c = '\\' then
      match pushByte ls.buffer ls.codepoint with
      | some b => .ok { ls with buffer := b, state := .DoubleQuoteEscape } []
      | none => .panic
    else if c = '"' then
      match pushByte ls.buffer ls.codepoint with
      | some b =>
        .ok { ls with buffer := b, state := .Initial } [(ls.token_position, .DoubleQuote b)]
      | none => .panic
    else
      match pushByte ls.buffer ls.codepoint with
      | some b => .ok { ls with buffer := b.push c, state := .DoubleQuote } []
      | none => .panic
  | .DoubleQuoteEscapeHexBound =>
    if '0' ≤ c ∧ c ≤ '9' then
      .ok
        { ls with
          codepoint := ((ls.codepoint <<< 4) % 2 ^ 32) ||| (c.toNat - '0'.toNat),
          state := .DoubleQuoteEscapeHex2 } []
    else if 'a' ≤ c ∧ c ≤ 'f' then
      .ok
        { ls with
          codepoint := ((ls.codepoint <<< 4) % 2 ^ 32) ||| (c.toNat - 'a'.toNat),
          state := .DoubleQuoteEscapeHex2 } []
    else if 'A' ≤ c ∧ c ≤ 'F' then
      .ok
        { ls with
          codepoint := ((ls.codepoint <<< 4) % 2 ^ 32) ||| (c.toNat - 'A'.toNat),
          state := .DoubleQuoteEscapeHex2 } []
    else if c = '}' then
      match charFromU32 ls.codepoint with
      | some x => .ok { ls with buffer := ls.buffer.push x } []
      | none => .err ⟨p, .DoubleQuoteEscapeHexBound, .InvalidUnicode ls.codepoint⟩
    else .err ⟨p, .DoubleQuoteEscapeHexBound, .Unexpected c⟩
  | .DoubleQuoteEscapeHex2 =>
    if '0' ≤ c ∧ c ≤ '9' then
      let cp := ((ls.codepoint <<< 4) % 2 ^ 32) ||| (c.toNat - '0'.toNat)
      match pushByte ls.buffer cp with
      | some b => .ok { ls with codepoint := cp, buffer := b, state := .DoubleQuote } []
      | none => .panic
    else if 'a' ≤ c ∧ c ≤ 'f' then
      let cp := ((ls.codepoint <<< 4) % 2 ^ 32) ||| (c.toNat - 'a'.toNat)
      match pushByte ls.buffer cp with
      | some b => .ok { ls with codepoint := cp, buffer := b, state := .DoubleQuote } []
      | none => .panic
    else if 'A' ≤ c ∧ c ≤ 'F' then
      let cp := ((ls.codepoint <<< 4) % 2 ^ 32) ||| (c.toNat - 'A'.toNat)
      match pushByte ls.buffer cp with
      | some b => .ok { ls with codepoint := cp, buffer := b, state := .DoubleQuote } []
      | none => .panic
    else if c = '\\' then
      match pushByte ls.buffer ls.codepoint with
      | some b => .ok { ls with buffer := b, state := .DoubleQuoteEscape } []
      | none => .panic
    else if c = '"' then
      match pushByte ls.buffer ls.codepoint with
      | some b =>
        .ok { ls with buffer := b, state := .Initial } [(ls.token_position, .DoubleQuote b)]
      | none => .panic
    else
      match pushByte ls.buffer ls.codepoint with
      | some b => .ok { ls with buffer := b.push c, state := .DoubleQuote } []
      | none => .panic
  | .PHPTag0 =>
    if c = '=' then .ok { ls with state := .Initial } []
    else if c = 'p' then .ok { ls with state := .PHPTag1 } []
    else .err ⟨p, .PHPTag0, .Unexpected c⟩
  | .PHPTag1 =>
    if c = 'h' then .ok { ls with state := .PHPTag2 } []
    else .err ⟨p, .PHPTag1, .Unexpected c⟩
  | .PHPTag2 =>
    if c = 'p' then .ok { ls with state := .Initial } []
    else .err ⟨p, .PHPTag2, .Unexpected c⟩
  | .DoubleQuoteEscapeOctal3 =>
    if '0' ≤ c ∧ c ≤ '7' then
      let cp := ((ls.codepoint <<< 3) % 2 ^ 32) ||| (c.toNat - '0'.toNat)
      match pushByte ls.buffer cp with
      | some b => .ok { ls with codepoint := cp, buffer := b, state := .DoubleQuote } []
      | none => .panic
    else if c = '\\' then
      match pushByte ls.buffer ls.codepoint with
      | some b => .ok { ls with buffer := b, state := .DoubleQuoteEscape } []
      | none => .panic
    else if c = '"' then
      match pushByte ls.buffer ls.codepoint with
      | some b =>
        .ok { ls with buffer := b, state := .Initial } [(ls.token_position, .DoubleQuote b)]
      | none => .panic
    else
      match pushByte ls.buffer ls.codepoint with
      | some b => .ok { ls with buffer := b.push c, state := .DoubleQuote } []
      | none => .panic

/-- The character loop of `lex`: feed a list of characters, accumulating the
emitted tokens, stopping at the first error (as the Rust `?` does). -/
def lexFeed : LexState → List Char → StepOut
  | ls, [] => .ok ls []
  | ls, c :: cs =>
    match lexStep ls c with
    | .ok ls' ts =>
      match lexFeed ls' cs with
      | .ok ls₂ ts₂ => .ok ls₂ (ts ++ ts₂)
      | .err e => .err e
      | .panic => .panic
    | .err e => .err e
    | .panic => .panic

/-- `eof` (`lex.rs` lines 628-669): finalize lexing at end of input, returning
the tokens emitted (at most one). -/
def eof (state : State) (position : Position) (token_position : Position)
    (buffer : String) : Except LexError (List (Position × Token)) :=
  match state with
  | .Initial | .LineComment | .MultiLineComment | .MultiLineCommentPrepareExit => .ok []
  | .Integer => .ok [(token_position, .Int buffer)]
  | .Identifier => .ok [(token_position, .Identifier buffer)]
  | .Decimal => .ok [(token_position, .Float buffer)]
  | s => .error ⟨position, s, .EOF⟩

mutual
/-- `enum Value` (`kvp.rs` lines 4-23). -/
inductive Value where
  | Null
  | Bool (b : Bool)
  | Int (n : Int)
  | Float (x : F64)
  | Str (s : String)
  | Set (xs : KVPList)
  deriving DecidableEq

/-- `Vec<KeyValuePair>`, the payload of `Value::Set` and the sibling
sequences of the deserializer (spelled out mutually with `Value` so that
simultaneous structural induction is available). -/
inductive KVPList where
  | nil
  | cons (head : KeyValuePair) (tail : KVPList)
  deriving DecidableEq

/-- `struct KeyValuePair` (`kvp.rs` lines 217-224). -/
inductive KeyValuePair where
  | mk (key : Option String) (value : Value)
  deriving DecidableEq
end

/-- The `key` field of a `KeyValuePair`. -/
def KeyValuePair.key : KeyValuePair → Option String
  | .mk k _ => k

/-- The `value` field of a `KeyValuePair`. -/
def KeyValuePair.value : KeyValuePair → Value
  | .mk _ v => v

/-- `Vec::push` (append at the back). -/
def KVPList.push : KVPList → KeyValuePair → KVPList
  | .nil, k => .cons k .nil
  | .cons h t, k => .cons h (t.push k)

/-- The 3-state mode of the string-quoting heuristic
(`kvp.rs`, `enum PHPStringState`). -/
inductive PHPStringState where
  | Undecided
  | UndecidedEscape
  | Decided
  deriving DecidableEq, Repr

/-- One iteration of the `php_str` character loop (`kvp.rs` lines 68-191).
The accumulator carries the mode, the double-quoted candidate `d` and the
single-quoted candidate `s`, in that order. -/
def phpStrStep : PHPStringState × String × String → Char → PHPStringState × String × String
  | (.Undecided, d, s), c =>
    if c = '\u0000' then (.Decided, d ++ "\\000", s)
    else if c = '\u0007' then (.Decided, d ++ "\\a", s)
    else if c = '\u001b' then (.Decided, d ++ "\\e", s)
    else if c = '\u000c' then (.Decided, d ++ "\\f", s)
    else if c = '\r' then (.Decided, d ++ "\\r", s)
    else if c = '\n' then (.Decided, d ++ "\\n", s)
    else if c = '\t' then (.Decided, d ++ "\\t", s)
    else if c = '\'' then (.Undecided, d.push '\'', s ++ "\\'")
    else if c = '\\' then (.UndecidedEscape, d ++ "\\\\", s)
    else if c = '"' then (.Undecided, d ++ "\\\"", s.push '"')
    else if c = '$' then (.Undecided, d ++ "\\$", s.push '$')
    else (.Undecided, d.push c, s.push c)
  | (.UndecidedEscape, d, s), c =>
    if c = '\u0000' then (.Decided, d ++ "\\000", s)
    else if c = '\u0007' then (.Decided, d ++ "\\a", s)
    else if c = '\u001b' then (.Decided, d ++ "\\e", s)
    else if c = '\u000c' then (.Decided, d ++ "\\f", s)
    else if c = '\r' then (.Decided, d ++ "\\r", s)
    else if c = '\n' then (.Decided, d ++ "\\n", s)
    else if c = '\t' then (.Decided, d ++ "\\t", s)
    else if c = '\'' then (.Undecided, d.push '\'', s ++ "\\\\\\'")
    else if c = '\\' then (.UndecidedEscape, d ++ "\\\\\\\\", s ++ "\\\\")
    else if c = '"' then (.Undecided, d ++ "\\\"", s ++ "\\\"")
    else if c = '$' then (.Undecided, d ++ "\\$", s ++ "\\$")
    else (.Undecided, d.push c, (s.push '\\').push c)
  | (.Decided, d, s), c =>
    if c = '\u0000' then (.Decided, d ++ "\\000", s)
    else if c = '\u0007' then (.Decided, d ++ "\\a", s)
    else if c = '\u001b' then (.Decided, d ++ "\\e", s)
    else if c = '\u000c' then (.Decided, d ++ "\\f", s)
    else if c = '\r' then (.Decided, d ++ "\\r", s)
    else if c = '\n' then (.Decided, d ++ "\\n", s)
    else if c = '\t' then (.Decided, d ++ "\\t", s)
    else if c = '\'' then (.Decided, d.push '\'', s)
    else if c = '\\' then (.Decided, d ++ "\\\\", s)
    else if c = '"' then (.Decided, d ++ "\\\"", s)
    else if c = '$' then (.Decided, d ++ "\\$", s)
    else (.Decided, d.push c, s)

/-- `php_str` (`kvp.rs` lines 59-207): the string-quoting heuristic.  Starts
with `d = "\""`, `s = "'"`, mode Undecided; scans the input; finally emits
the single-quoted candidate unless the scan reached Decided. -/
def php_str (input : String) : String :=
  match input.data.foldl phpStrStep (.Undecided, "\"", "'") with
  | (.Undecided, _, s) => s.push '\''
  | (.UndecidedEscape, _, s) => s ++ "\\\\'"
  | (.Decided, d, _) => d.push '"'

/-- Digit run to number. -/
def digitsToNat (ds : List Char) : Nat :=
  ds.foldl (fun acc c => acc * 10 + (c.toNat - '0'.toNat)) 0

/-- Models `i64::from_str`: optional sign, one or more decimal digits
spanning the whole string, result within the i64 range. -/
def i64FromStr (x : String) : Option Int :=
  let step : Int × List Char :=
    match x.data with
    | '+' :: rest => (1, rest)
    | '-' :: rest => (-1, rest)
    | rest => (1, rest)
  if step.2 = [] ∨ ¬ step.2.all Char.isDigit then none
  else
    let v : Int := step.1 * (digitsToNat step.2 : Nat)
    if -(2 ^ 63) ≤ v ∧ v ≤ 2 ^ 63 - 1 then some v else none

/-- Exponent suffix of a float literal: `(e|E) sign? digit+`, which must
consume the rest of the string. -/
def f64ExpSuffix (mant : ℚ) (rest : List Char) : Option F64 :=
  match rest with
  | [] => some (.val mant)
  | e :: r =>
    if e = 'e' ∨ e = 'E' then
      let signed : Int × List Char :=
        match r with
        | '+' :: r2 => (1, r2)
        | '-' :: r2 => (-1, r2)
        | r2 => (1, r2)
      let ed := signed.2.takeWhile Char.isDigit
      let r2 := signed.2.dropWhile Char.isDigit
      if ed = [] ∨ r2 ≠ [] then none
      else some (.val (mant * (10 : ℚ) ^ (signed.1 * (digitsToNat ed : Nat) : Int)))
    else none

/-- Models `f64::from_str` on the raw text the lexer produces for number
tokens: `sign? (digit+ | digit+ . digit* | digit* . digit+) exp?`.  The
word forms `inf`/`infinity`/`nan` that `from_str` also accepts are omitted:
the lexer's number lexemes consist only of digits and `.`, `e`, `E`, `+`,
`-`, so they are unreachable through `deser_str`.  The numeric result is the
exact rational value of the literal (rounding to the nearest double is not
modelled; no claim depends on a parsed float's value). -/
def f64FromStr (x : String) : Option F64 :=
  let signed : ℚ × List Char :=
    match x.data with
    | '+' :: rest => (1, rest)
    | '-' :: rest => (-1, rest)
    | rest => (1, rest)
  let ip := signed.2.takeWhile Char.isDigit
  let rest := signed.2.dropWhile Char.isDigit
  match rest with
  | '.' :: r =>
    let fp := r.takeWhile Char.isDigit
    let r2 := r.dropWhile Char.isDigit
    if ip = [] ∧ fp = [] then none
    else
      f64ExpSuffix (signed.1 * ((digitsToNat (ip ++ fp) : ℚ) / (10 : ℚ) ^ fp.length)) r2
  | r =>
    if ip = [] then none
    else f64ExpSuffix (signed.1 * (digitsToNat ip : ℚ)) r

/-- Discriminant rank of `Value` variants: `derive(PartialOrd)` compares the
variant tags first, in declaration order. -/
def valueRank : Value → Nat
  | .Null => 0
  | .Bool _ => 1
  | .Int _ => 2
  | .Float _ => 3
  | .Str _ => 4
  | .Set _ => 5

/-- Derived `PartialOrd::partial_cmp` for `Option<String>` (total:
`None < Some`, `Some` compared by the string order). -/
def optionStringPartialCmp : Option String → Option String → Option Ordering
  | none, none => some .eq
  | none, some _ => some .lt
  | some _, none => some .gt
  | some a, some b => some (compare a b)

mutual
/-- Derived `PartialOrd::partial_cmp` for `Value` (`kvp.rs` line 4,
`#[derive(PartialOrd)]`): variant tags first, payloads on ties;
`Float` payloads through the partial f64 comparison. -/
def valuePartialCmp : Value → Value → Option Ordering
  | .Null, .Null => some .eq
  | .Bool a, .Bool b => some (compare a b)
  | .Int a, .Int b => some (compare a b)
  | .Float a, .Float b => F64.partialCmp a b
  | .Str a, .Str b => some (compare a b)
  | .Set a, .Set b => kvpListPartialCmp a b
  | v, w => some (compare (valueRank v) (valueRank w))

/-- Derived `PartialOrd::partial_cmp` for `Vec<KeyValuePair>`: lexicographic,
propagating the first non-equal (or incomparable) element result, ties broken
by length. -/
def kvpListPartialCmp : KVPList → KVPList → Option Ordering
  | .nil, .nil => some .eq
  | .nil, .cons _ _ => some .lt
  | .cons _ _, .nil => some .gt
  | .cons a as, .cons b bs =>
    match kvpPartialCmp a b with
    | some .eq => kvpListPartialCmp as bs
    | r => r

/-- Derived `PartialOrd::partial_cmp` for `KeyValuePair`: `key` then
`value`. -/
def kvpPartialCmp : KeyValuePair → KeyValuePair → Option Ordering
  | .mk k1 v1, .mk k2 v2 =>
    match optionStringPartialCmp k1 k2 with
    | some .eq => valuePartialCmp v1 v2
    | r => r
end

/-- `Ord::cmp` for `Value` (`kvp.rs` lines 210-214) is
`self.partial_cmp(other).unwrap()`: the `none` case is the panic. -/
def valueCmp (a b : Value) : Option Ordering := valuePartialCmp a b

mutual
/-- A value holds no `Float` NaN anywhere inside it. -/
def valueNanFree : Value → Bool
  | .Float .nan => false
  | .Set xs => kvpListNanFree xs
  | _ => true

/-- All pairs of the list are NaN-free. -/
def kvpListNanFree : KVPList → Bool
  | .nil => true
  | .cons k t => kvpNanFree k && kvpListNanFree t

/-- The pair's value is NaN-free. -/
def kvpNanFree : KeyValuePair → Bool
  | .mk _ v => valueNanFree v
end

/-- Models Rust `format!("{}", x)` on an `f64` at interface level only: the
shortest-round-trip decimal rendering of doubles is a floating-point concern
that this embedding does not reproduce, and no claim below evaluates it (the
trees in every concrete claim are float-free). -/
def f64Display : F64 → String
  | .nan => "NaN"
  | .val q => if q.den = 1 then toString q.num else toString q

mutual
/-- `impl Display for Value` (`kvp.rs` lines 25-51). -/
def valueDisplay : Value → String
  | .Null => "null"
  | .Bool true => "true"
  | .Bool false => "false"
  | .Int x => toString x
  | .Float x =>
    let s := f64Display x
    if s.contains '.' then s else s ++ ".0"
  | .Str x => php_str x
  | .Set x => "[" ++ kvpListDisplayLoop x ++ "]"

/-- The `for kvp in x` loop of the `Value::Set` Display arm (each pair
followed by a comma). -/
def kvpListDisplayLoop : KVPList → String
  | .nil => ""
  | .cons k t => kvpDisplay k ++ "," ++ kvpListDisplayLoop t

/-- `impl Display for KeyValuePair` (`kvp.rs` lines 245-253). -/
def kvpDisplay : KeyValuePair → String
  | .mk (some key) v => php_str key ++ " => " ++ valueDisplay v
  | .mk none v => valueDisplay v
end

/-- `KeyValuePair::key_prefix` (`kvp.rs` lines 233-242). -/
def key_prefix : KeyValuePair → String
  | .mk (some key) _ => php_str key ++ " => "
  | .mk none _ => ""

mutual
/-- `ser_str_ex` (`ser.rs` lines 16-39): one line per sibling, indented by
`tabs`, each terminated by `,\n`; nested non-empty sets recurse with one more
tab, empty sets are written as the two-character `[]`. -/
def ser_str_ex : KVPList → String → String
  | .nil, _ => ""
  | .cons (.mk k v) rest, tabs =>
    tabs ++ key_prefix (.mk k v) ++ ser_value v tabs ++ ",\n" ++ ser_str_ex rest tabs

/-- The `match &kvp.value` inside the `ser_str_ex` loop body. -/
def ser_value : Value → String → String
  | .Set put, tabs =>
    match put with
    | .nil => "[]"
    | .cons h t => "[" ++ ser_str_ex (.cons h t) (tabs.push '\t') ++ "]"
  | x, _ => valueDisplay x
end

/-- `ser_str` (`ser.rs` lines 7-14). -/
def ser_str (output : KVPList) : String :=
  "<?php\nreturn [\n" ++ ser_str_ex output "\t" ++ "];\n"

/-- `enum DeserErrorKind` (`deser.rs` lines 11-30).  Note: the source never
constructs `FloatCast`; the float-parse-failure arm uses `IntCast`. -/
inductive DeserErrorKind where
  | Lex (kind : LexErrorKind)
  | UnexpectedIdentifier (text : String)
  | InvalidKey
  | MissingComma
  | FloatCast (text : String)
  | IntCast (text : String)
  deriving DecidableEq, Repr

/-- `struct DeserError` (`deser.rs` lines 33-40). -/
structure DeserError where
  position : Position
  kind : DeserErrorKind
  deriving DecidableEq, Repr

/-- Models `str::to_lowercase` (used on identifiers at `deser.rs` line 136):
lowercases character by character.  Exact on ASCII — the only characters for
which the lowered result can match `"true"`, `"false"`, `"null"` or
`"return"`; the full Unicode lowercasing table is not reproduced. -/
def rustToLowercase (x : String) : String :=
  ⟨x.data.map Char.toLower⟩

/-- The local mutable state of the token loop of `deser_str` (`deser.rs`
lines 88-94).  `data` is the frame stack, head = top (the Rust `Vec`
pushes/pops at the back). -/
structure DeserState where
  data : List (Option String × KVPList)
  current : KVPList
  pair_key : Option String
  pair_value : Value
  pair_set : Bool
  first_open : Bool

/-- The loop state as initialized at `deser.rs` lines 88-94. -/
def DeserState.start : DeserState :=
  { data := [], current := .nil, pair_key := none, pair_value := .Null,
    pair_set := false, first_open := true }

/-- Commit the staged pair into the current sibling sequence, as the
`Separator` and `CloseSet` arms do: push `(pair_key, pair_value)`, swapping
the key and value slots back to `None`/`Null` and clearing the flag. -/
def commitPair (st : DeserState) : DeserState :=
  { st with
    current := st.current.push (.mk st.pair_key st.pair_value),
    pair_key := none,
    pair_value := .Null,
    pair_set := false }

/-- One iteration of the token loop of `deser_str` (`deser.rs` lines
95-219).  `.inr result` models `lexer_break`: the loop stops and `deser_str`
returns `result` immediately. -/
def deserStep (st : DeserState) (pt : Position × Token) :
    Except DeserError (DeserState ⊕ KVPList) :=
  let p := pt.1
  match pt.2 with
  | .Float x =>
    if st.pair_set then .error ⟨p, .MissingComma⟩
    else
      match f64FromStr x with
      | some v => .ok (.inl { st with pair_value := .Float v, pair_set := true })
      | none => .error ⟨p, .IntCast x⟩
  | .Int x =>
    if st.pair_set then .error ⟨p, .MissingComma⟩
    else
      match i64FromStr x with
      | some v => .ok (.inl { st with pair_value := .Int v, pair_set := true })
      | none => .error ⟨p, .IntCast x⟩
  | .DoubleQuote x =>
    if st.pair_set then .error ⟨p, .MissingComma⟩
    else .ok (.inl { st with pair_value := .Str x, pair_set := true })
  | .SingleQuote x =>
    if st.pair_set then .error ⟨p, .MissingComma⟩
    else .ok (.inl { st with pair_value := .Str x, pair_set := true })
  | .Assignment =>
    match st.pair_value with
    | .Str v =>
      .ok (.inl { st with pair_key := some v, pair_value := .Null, pair_set := false })
    | _ => .error ⟨p, .InvalidKey⟩
  | .Identifier x =>
    let lower := rustToLowercase x
    if lower = "true" then
      if st.pair_set then .error ⟨p, .MissingComma⟩
      else .ok (.inl { st with pair_value := .Bool true, pair_set := true })
    else if lower = "false" then
      if st.pair_set then .error ⟨p, .MissingComma⟩
      else .ok (.inl { st with pair_value := .Bool false, pair_set := true })
    else if lower = "null" then
      if st.pair_set then .error ⟨p, .MissingComma⟩
      else .ok (.inl { st with pair_value := .Null, pair_set := true })
    else if lower = "return" then .ok (.inl st)
    else .error ⟨p, .UnexpectedIdentifier x⟩
  | .OpenSet =>
    if st.pair_set then .error ⟨p, .MissingComma⟩
    else if ¬ st.first_open then
      .ok (.inl { st with
        data := (st.pair_key, st.current) :: st.data,
        current := .nil,
        pair_key := none,
        pair_value := .Null })
    else .ok (.inl { st with first_open := false })
  | .Separator =>
    if st.pair_set then .ok (.inl (commitPair st)) else .ok (.inl st)
  | .CloseSet =>
    let st1 := if st.pair_set then commitPair st else st
    match st1.data with
    | [] => .ok (.inr st1.current)
    | (old_key, parent) :: rest =>
      -- the second `if pair_set` of the source (`deser.rs` lines 202-209),
      -- kept although the flag is necessarily clear at this point
      let st2 := if st1.pair_set then commitPair st1 else st1
      .ok (.inl { st2 with
        data := rest,
        current := parent.push (.mk old_key (.Set st2.current)) })

/-- The `for (p, t) in tokens` loop with the `lexer_break` early exit; when
the stream is exhausted the result is the current sibling sequence
(`Ok(current)`, `deser.rs` line 220). -/
def deserLoop : DeserState → List (Position × Token) → Except DeserError KVPList
  | st, [] => .ok st.current
  | st, t :: ts =>
    match deserStep st t with
    | .error e => .error e
    | .ok (.inl st2) => deserLoop st2 ts
    | .ok (.inr r) => .ok r

/-- `deser_str` (`deser.rs` lines 65-221): run the lexer to completion
(`lex` then `eof`, propagating lexer errors wrapped in `Lex`), then the
token loop.  `none` models a Rust panic inside the lexer (see
`StepOut.panic`). -/
def deser_str (input : String) : Option (Except DeserError KVPList) :=
  match lexFeed LexState.start input.data with
  | .panic => none
  | .err e => some (.error ⟨e.position, .Lex e.kind⟩)
  | .ok ls ts =>
    match eof ls.state ls.position ls.token_position ls.buffer with
    | .error e => some (.error ⟨e.position, .Lex e.kind⟩)
    | .ok ts2 => some (deserLoop DeserState.start (ts ++ ts2))

/-! ## Helper lemmas -/

/-- `optionStringPartialCmp` is total. -/
theorem optionStringPartialCmp_isSome (a b : Option String) :
    (optionStringPartialCmp a b).isSome = true := by
  cases a <;> cases b <;> rfl

mutual
/-- On NaN-free values the derived partial comparison always succeeds. -/
theorem valuePartialCmp_isSome (v w : Value) (hv : valueNanFree v = true)
    (hw : valueNanFree w = true) : (valuePartialCmp v w).isSome = true :=
  match v, w, hv, hw with
  | .Null, .Null, _, _ => rfl
  | .Null, .Bool _, _, _ => rfl
  | .Null, .Int _, _, _ => rfl
  | .Null, .Float _, _, _ => rfl
  | .Null, .Str _, _, _ => rfl
  | .Null, .Set _, _, _ => rfl
  | .Bool _, .Null, _, _ => rfl
  | .Bool _, .Bool _, _, _ => rfl
  | .Bool _, .Int _, _, _ => rfl
  | .Bool _, .Float _, _, _ => rfl
  | .Bool _, .Str _, _, _ => rfl
  | .Bool _, .Set _, _, _ => rfl
  | .Int _, .Null, _, _ => rfl
  | .Int _, .Bool _, _, _ => rfl
  | .Int _, .Int _, _, _ => rfl
  | .Int _, .Float _, _, _ => rfl
  | .Int _, .Str _, _, _ => rfl
  | .Int _, .Set _, _, _ => rfl
  | .Float _, .Null, _, _ => rfl
  | .Float _, .Bool _, _, _ => rfl
  | .Float _, .Int _, _, _ => rfl
  | .Float a, .Float b, ha, hb => by
    cases a with
    | nan => simp [valueNanFree] at ha
    | val qa =>
      cases b with
      | nan => simp [valueNanFree] at hb
      | val qb => rfl
  | .Float _, .Str _, _, _ => rfl
  | .Float _, .Set _, _, _ => rfl
  | .Str _, .Null, _, _ => rfl
  | .Str _, .Bool _, _, _ => rfl
  | .Str _, .Int _, _, _ => rfl
  | .Str _, .Float _, _, _ => rfl
  | .Str _, .Str _, _, _ => rfl
  | .Str _, .Set _, _, _ => rfl
  | .Set _, .Null, _, _ => rfl
  | .Set _, .Bool _, _, _ => rfl
  | .Set _, .Int _, _, _ => rfl
  | .Set _, .Float _, _, _ => rfl
  | .Set _, .Str _, _, _ => rfl
  | .Set a, .Set b, ha, hb => kvpListPartialCmp_isSome a b ha hb

/-- On NaN-free lists the lexicographic partial comparison always
succeeds. -/
theorem kvpListPartialCmp_isSome (a b : KVPList) (ha : kvpListNanFree a = true)
    (hb : kvpListNanFree b = true) : (kvpListPartialCmp a b).isSome = true :=
  match a, b, ha, hb with
  | .nil, .nil, _, _ => rfl
  | .nil, .cons _ _, _, _ => rfl
  | .cons _ _, .nil, _, _ => rfl
  | .cons a as, .cons b bs, ha, hb => by
    have ha' := ha
    have hb' := hb
    simp only [kvpListNanFree, Bool.and_eq_true] at ha' hb'
    have h1 := kvpPartialCmp_isSome a b ha'.1 hb'.1
    have h2 := kvpListPartialCmp_isSome as bs ha'.2 hb'.2
    simp only [kvpListPartialCmp]
    cases hcmp : kvpPartialCmp a b with
    | none => rw [hcmp] at h1; simp at h1
    | some o => cases o <;> simp [h2]

/-- On NaN-free pairs the derived partial comparison always succeeds. -/
theorem kvpPartialCmp_isSome (a b : KeyValuePair) (ha : kvpNanFree a = true)
    (hb : kvpNanFree b = true) : (kvpPartialCmp a b).isSome = true :=
  match a, b, ha, hb with
  | .mk k1 v1, .mk k2 v2, ha, hb => by
    simp only [kvpPartialCmp]
    cases hcmp : optionStringPartialCmp k1 k2 with
    | none =>
      have := optionStringPartialCmp_isSome k1 k2
      rw [hcmp] at this; simp at this
    | some o =>
      cases o with
      | eq => exact valuePartialCmp_isSome v1 v2 ha hb
      | lt => rfl
      | gt => rfl
end

/-- Values of distinct variants compare by declaration-order rank, without
looking at payloads. -/
theorem valuePartialCmp_offDiagonal (v w : Value) (h : valueRank v ≠ valueRank w) :
    valuePartialCmp v w = some (compare (valueRank v) (valueRank w)) := by
  cases v <;> cases w <;> first
    | rfl
    | (exfalso; exact h rfl)

/-! ## Claim theorems -/

/-- C1: evaluation of the code at the failing input.  The round-trip
property fails: the empty tree — which `deser_str` itself produces from
`"[]"` — does not round-trip, because `ser_str` ends every output with
`];` and the lexer's Initial state has no arm for `';'`, so
re-deserializing the serialized text fails with `Lex (Unexpected ';')`
instead of returning the tree. -/
theorem C1_round_trip_fails :
    deser_str "[]" = some (.ok .nil) ∧
    ser_str .nil = "<?php\nreturn [\n];\n" ∧
    deser_str (ser_str .nil) =
      some (.error ⟨⟨17, 2, 2⟩, .Lex (.Unexpected ';')⟩) :=
  ⟨rfl, rfl, rfl⟩

/-- C2: evaluation of the code at the failing input.  The quoting heuristic
is unsound: for the string backslash-backslash-NUL the chosen literal is the
double-quoted candidate, which decodes (from a fresh lexer) to a *single*
token whose text has three backslashes, not two — on a backslash following a
backslash the mode stays in UndecidedEscape and the double-quoted candidate
receives doubled (non-minimal) escaping, as the last conjunct shows. -/
theorem C2_quoting_unsound :
    php_str "\\\\\u0000" = "\"\\\\\\\\\\\\\\000\"" ∧
    lexFeed LexState.start (php_str "\\\\\u0000").data =
      .ok ⟨.Initial, ⟨12, 0, 12⟩, ⟨1, 0, 1⟩, "\\\\\\\u0000", 0⟩
        [(⟨1, 0, 1⟩, .DoubleQuote "\\\\\\\u0000")] ∧
    "\\\\\\\u0000" ≠ "\\\\\u0000" ∧
    (∀ d s : String, phpStrStep (.UndecidedEscape, d, s) '\\' =
      (.UndecidedEscape, d ++ "\\\\\\\\", s ++ "\\\\")) :=
  ⟨rfl, rfl, by decide, fun _ _ => rfl⟩

/-- C3: evaluation of the code at the failing input.  Number scanning does
not accumulate digits: the Integer state accepts only `'0'` as a continuing
digit (`'0'..='0'` in the source), so `"12"` and `"12,"` fail with
`Unexpected '2')` at the second digit, while a run whose continuation digits
are all zero (`"10,"`) still lexes to a single `Int` token. -/
theorem C3_digit_run_rejected :
    lexFeed LexState.start "12".data =
      .err ⟨⟨2, 0, 2⟩, .Integer, .Unexpected '2'⟩ ∧
    lexFeed LexState.start "12,".data =
      .err ⟨⟨2, 0, 2⟩, .Integer, .Unexpected '2'⟩ ∧
    lexFeed LexState.start "10,".data =
      .ok ⟨.Initial, ⟨3, 0, 3⟩, ⟨1, 0, 1⟩, "10", 0⟩
        [(⟨1, 0, 1⟩, .Int "10"), (⟨3, 0, 3⟩, .Separator)] :=
  ⟨rfl, rfl, rfl⟩

/-- C4: evaluation of the code at the failing input.  For `"[1.0.0]"` the
float lexeme `"1.0.0"` fails to parse as a 64-bit float, and `deser_str`
reports error kind `IntCast "1.0.0"` (the source's `Token::Float` arm
constructs `IntCast`, never `FloatCast`) at the float token's position. -/
theorem C4_float_cast_is_IntCast :
    f64FromStr "1.0.0" = none ∧
    deser_str "[1.0.0]" =
      some (.error ⟨⟨2, 0, 2⟩, .IntCast "1.0.0"⟩) ∧
    DeserErrorKind.IntCast "1.0.0" ≠ DeserErrorKind.FloatCast "1.0.0" :=
  ⟨rfl, rfl, by decide⟩

/-- C5: whenever a value token (number, string, or a true/false/null
identifier) arrives while a value is already staged, `deserStep` fails with
`MissingComma` at that token's position; concretely, `"[1 2]"` lexes the
`2` token at position (index 4, line 0, column 4) and `deser_str "[1 2]"`
fails with `MissingComma` exactly there. -/
theorem C5_missing_comma (st : DeserState) (p : Position) (x : String)
    (h : st.pair_set = true) :
    deserStep st (p, .Int x) = .error ⟨p, .MissingComma⟩ ∧
    deserStep st (p, .Float x) = .error ⟨p, .MissingComma⟩ ∧
    deserStep st (p, .SingleQuote x) = .error ⟨p, .MissingComma⟩ ∧
    deserStep st (p, .DoubleQuote x) = .error ⟨p, .MissingComma⟩ ∧
    ((rustToLowercase x = "true" ∨ rustToLowercase x = "false" ∨
        rustToLowercase x = "null") →
      deserStep st (p, .Identifier x) = .error ⟨p, .MissingComma⟩) ∧
    lexFeed LexState.start "[1 2]".data =
      .ok ⟨.Initial, ⟨5, 0, 5⟩, ⟨4, 0, 4⟩, "2", 0⟩
        [(⟨1, 0, 1⟩, .OpenSet), (⟨2, 0, 2⟩, .Int "1"),
         (⟨4, 0, 4⟩, .Int "2"), (⟨5, 0, 5⟩, .CloseSet)] ∧
    deser_str "[1 2]" = some (.error ⟨⟨4, 0, 4⟩, .MissingComma⟩) := by
  refine ⟨?_, ?_, ?_, ?_, ?_, rfl, rfl⟩
  · simp [deserStep, h]
  · simp [deserStep, h]
  · simp [deserStep, h]
  · simp [deserStep, h]
  · rintro (hid | hid | hid) <;> simp [deserStep, h, hid]

/-- Witness for C5 at a concrete staged state and concrete tokens. -/
theorem C5_missing_comma_witness :
    deserStep { DeserState.start with pair_set := true } (⟨9, 0, 9⟩, .Int "7") =
      .error ⟨⟨9, 0, 9⟩, .MissingComma⟩ ∧
    deserStep { DeserState.start with pair_set := true }
        (⟨9, 0, 9⟩, .Identifier "TRUE") =
      .error ⟨⟨9, 0, 9⟩, .MissingComma⟩ :=
  ⟨(C5_missing_comma { DeserState.start with pair_set := true } ⟨9, 0, 9⟩ "7" rfl).1,
   (C5_missing_comma { DeserState.start with pair_set := true } ⟨9, 0, 9⟩ "TRUE"
      rfl).2.2.2.2.1 (Or.inl (by decide))⟩

/-- C6: `eof` is a no-op in Initial and the line/block-comment states; it
emits the pending buffered token (`Int`, `Identifier`, `Float`, at the
recorded token position) in the Integer, Identifier and Decimal scan states;
and in every other state it returns a lex error of kind `EOF` at the current
position, carrying the state. -/
theorem C6_eof_characterization (p tp : Position) (b : String) :
    eof .Initial p tp b = .ok [] ∧
    eof .LineComment p tp b = .ok [] ∧
    eof .MultiLineComment p tp b = .ok [] ∧
    eof .MultiLineCommentPrepareExit p tp b = .ok [] ∧
    eof .Integer p tp b = .ok [(tp, .Int b)] ∧
    eof .Identifier p tp b = .ok [(tp, .Identifier b)] ∧
    eof .Decimal p tp b = .ok [(tp, .Float b)] ∧
    eof .PrepareComment p tp b = .error ⟨p, .PrepareComment, .EOF⟩ ∧
    eof .PrepareAssignment p tp b = .error ⟨p, .PrepareAssignment, .EOF⟩ ∧
    eof .SingleQuote p tp b = .error ⟨p, .SingleQuote, .EOF⟩ ∧
    eof .DoubleQuote p tp b = .error ⟨p, .DoubleQuote, .EOF⟩ ∧
    eof .IntegerDecimal p tp b = .error ⟨p, .IntegerDecimal, .EOF⟩ ∧
    eof .PrepareOpenTag p tp b = .error ⟨p, .PrepareOpenTag, .EOF⟩ ∧
    eof .PrepareCloseTag p tp b = .error ⟨p, .PrepareCloseTag, .EOF⟩ ∧
    eof .SingleQuoteEscape p tp b = .error ⟨p, .SingleQuoteEscape, .EOF⟩ ∧
    eof .DoubleQuoteEscape p tp b = .error ⟨p, .DoubleQuoteEscape, .EOF⟩ ∧
    eof .DoubleQuoteEscapeControl p tp b =
      .error ⟨p, .DoubleQuoteEscapeControl, .EOF⟩ ∧
    eof .DoubleQuoteEscapeHex p tp b = .error ⟨p, .DoubleQuoteEscapeHex, .EOF⟩ ∧
    eof .DoubleQuoteEscapeOctal2 p tp b =
      .error ⟨p, .DoubleQuoteEscapeOctal2, .EOF⟩ ∧
    eof .DoubleQuoteEscapeHexBound p tp b =
      .error ⟨p, .DoubleQuoteEscapeHexBound, .EOF⟩ ∧
    eof .DoubleQuoteEscapeHex2 p tp b = .error ⟨p, .DoubleQuoteEscapeHex2, .EOF⟩ ∧
    eof .PHPTag0 p tp b = .error ⟨p, .PHPTag0, .EOF⟩ ∧
    eof .PHPTag1 p tp b = .error ⟨p, .PHPTag1, .EOF⟩ ∧
    eof .PHPTag2 p tp b = .error ⟨p, .PHPTag2, .EOF⟩ ∧
    eof .DoubleQuoteEscapeOctal3 p tp b =
      .error ⟨p, .DoubleQuoteEscapeOctal3, .EOF⟩ :=
  ⟨rfl, rfl, rfl, rfl, rfl, rfl, rfl, rfl, rfl, rfl, rfl, rfl, rfl, rfl, rfl,
   rfl, rfl, rfl, rfl, rfl, rfl, rfl, rfl, rfl, rfl⟩

/-- C7 counterexample: the input `"<?="` — a deviation from the literal
sequence `"<?php"` after `<?` — lexes successfully (back to Initial,
emitting nothing) instead of returning an Unexpected-character error: the
PHPTag0 state maps `'='` to Initial. -/
theorem C7_counterexample :
    lexFeed LexState.start "<?=".data =
      .ok ⟨.Initial, ⟨3, 0, 3⟩, ⟨0, 0, 0⟩, "", 0⟩ [] := rfl

/-- C7 (amended): tag scanning recognizes `"<?php"` and `"?>"` — and
additionally the short tag `"<?="` — as skipped no-op markers returning the
lexer to Initial; any other deviation from these sequences after an initial
`'<'` or `'?'` is an Unexpected-character error, as the complete transition
tables of the five tag states show. -/
theorem C7_tag_scanning (p tp : Position) (b : String) (cp : Nat) (c : Char) :
    lexFeed LexState.start "<?php".data =
      .ok ⟨.Initial, ⟨5, 0, 5⟩, ⟨0, 0, 0⟩, "", 0⟩ [] ∧
    lexFeed LexState.start "?>".data =
      .ok ⟨.Initial, ⟨2, 0, 2⟩, ⟨0, 0, 0⟩, "", 0⟩ [] ∧
    lexStep ⟨.PrepareOpenTag, p, tp, b, cp⟩ c =
      (if c = '?' then .ok ⟨.PHPTag0, p.advance (c = '\n'), tp, b, cp⟩ []
       else .err ⟨p.advance (c = '\n'), .PrepareOpenTag, .Unexpected c⟩) ∧
    lexStep ⟨.PHPTag0, p, tp, b, cp⟩ c =
      (if c = '=' then .ok ⟨.Initial, p.advance (c = '\n'), tp, b, cp⟩ []
       else if c = 'p' then .ok ⟨.PHPTag1, p.advance (c = '\n'), tp, b, cp⟩ []
       else .err ⟨p.advance (c = '\n'), .PHPTag0, .Unexpected c⟩) ∧
    lexStep ⟨.PHPTag1, p, tp, b, cp⟩ c =
      (if c = 'h' then .ok ⟨.PHPTag2, p.advance (c = '\n'), tp, b, cp⟩ []
       else .err ⟨p.advance (c = '\n'), .PHPTag1, .Unexpected c⟩) ∧
    lexStep ⟨.PHPTag2, p, tp, b, cp⟩ c =
      (if c = 'p' then .ok ⟨.Initial, p.advance (c = '\n'), tp, b, cp⟩ []
       else .err ⟨p.advance (c = '\n'), .PHPTag2, .Unexpected c⟩) ∧
    lexStep ⟨.PrepareCloseTag, p, tp, b, cp⟩ c =
      (if c = '>' then .ok ⟨.Initial, p.advance (c = '\n'), tp, b, cp⟩ []
       else .err ⟨p.advance (c = '\n'), .PrepareCloseTag, .Unexpected c⟩) := by
  refine ⟨rfl, rfl, ?_, ?_, ?_, ?_, ?_⟩ <;>
    simp only [lexStep] <;> (repeat' split) <;> rfl

/-- C8 counterexample: `cmp` does not panic whenever a NaN is merely present:
`cmp(Int 0, Float NaN)` returns `Less` and `cmp(Set [NaN pair], Str "")`
returns `Greater` — both comparisons are decided by the variant rank and
never inspect the NaN, although the right (resp. left) value contains one. -/
theorem C8_counterexample :
    valueNanFree (.Float .nan) = false ∧
    valueCmp (.Int 0) (.Float .nan) = some .lt ∧
    kvpListNanFree (.cons (.mk none (.Float .nan)) .nil) = false ∧
    valueCmp (.Set (.cons (.mk none (.Float .nan)) .nil)) (.Str "") =
      some .gt :=
  ⟨rfl, rfl, rfl, rfl⟩

/-- C8 (amended): `Ord::cmp` (i.e. `partial_cmp(..).unwrap()`) panics
exactly when a Float payload comparison involving a NaN is reached: comparing
two `Float` values with a NaN on either side yields `none` (the unwrap
panic); values of distinct variants compare by declaration order
(Null < Bool < Int < Float < Str < Set) without inspecting payloads; and for
NaN-free values the comparison always succeeds. -/
theorem C8_cmp_nan_and_total (a b : F64) (v w v₂ w₂ : Value)
    (hab : a = .nan ∨ b = .nan) (hvw : valueRank v < valueRank w)
    (hv : valueNanFree v₂ = true) (hw : valueNanFree w₂ = true) :
    valueCmp (.Float a) (.Float b) = none ∧
    valueCmp v w = some .lt ∧
    valueCmp w v = some .gt ∧
    (valueCmp v₂ w₂).isSome = true := by
  refine ⟨?_, ?_, ?_, valuePartialCmp_isSome v₂ w₂ hv hw⟩
  · rcases hab with rfl | rfl
    · rfl
    · cases a <;> rfl
  · rw [valueCmp, valuePartialCmp_offDiagonal v w (Nat.ne_of_lt hvw)]
    exact congrArg some (Nat.compare_eq_lt.mpr hvw)
  · rw [valueCmp, valuePartialCmp_offDiagonal w v (Nat.ne_of_gt hvw)]
    exact congrArg some (Nat.compare_eq_gt.mpr hvw)

/-- Witness for C8 at concrete values. -/
theorem C8_cmp_nan_and_total_witness :
    valueCmp (.Float .nan) (.Float (.val 1)) = none ∧
    valueCmp .Null (.Bool true) = some .lt ∧
    valueCmp (.Bool true) .Null = some .gt ∧
    (valueCmp (.Str "a") (.Str "b")).isSome = true :=
  C8_cmp_nan_and_total .nan (.val 1) .Null (.Bool true) (.Str "a") (.Str "b")
    (Or.inl rfl) (by decide) rfl rfl

/-- C9: a staged but never-committed value is silently dropped at the end of
the token stream: `deser_str "1"` stages `Int 1` and returns Ok with the
empty sequence; in general, on an exhausted stream the token loop returns
exactly the current sibling sequence, never committing the staged value. -/
theorem C9_staged_value_dropped :
    deser_str "1" = some (.ok .nil) ∧
    (∀ st : DeserState, deserLoop st [] = .ok st.current) :=
  ⟨rfl, fun _ => rfl⟩

/-- C10: unclosed `[` brackets are never reported: when the stream ends with
frames still on the stack, the innermost in-progress sibling sequence is
returned and every pending outer frame (with its pending key) is discarded;
concretely `deser_str "['a' => [1,"` returns Ok [(no key, Int 1)]. -/
theorem C10_unclosed_brackets_ignored :
    deser_str "['a' => [1," = some (.ok (.cons (.mk none (.Int 1)) .nil)) ∧
    (∀ (frames : List (Option String × KVPList)) (st : DeserState),
      deserLoop { st with data := frames } [] = .ok st.current) :=
  ⟨rfl, fun _ _ => rfl⟩

end Caked
